import Mathlib

/-!
# Invoice-Service: formal verification of the extraction and validation core

A shallow embedding of the `invoice_qc` package (files `extractor.py` and
`validator.py`) together with theorems settling the frozen claims about the
natural-language specification.

Modelling conventions:
* Python `float` values are modelled as exact rationals (`ℚ`); the tolerance
  comparisons of the validator use the literal `1/2` from the specification.
* Python `None` becomes `Option.none`; Python truthiness of strings
  (`None` and `""` are falsy) is modelled by `pyTruthy`.
* The mutable `seen_keys : Set[...]` of `validator.py` is threaded
  explicitly as a list of keys (only membership and insertion are used).
* `parse_number` and `approx_equal` are imported by the source from
  `invoice_qc.utils`, but the `utils.py` present in the repository snapshot
  is from a different iteration and does not define them; likewise the
  `Invoice`/`LineItem` records the extractor constructs do not match the
  dataclasses of the snapshot `schemas.py`.  Those missing pieces are
  modelled from the specification (marked `Modelled from the spec:`).
-/

set_option maxHeartbeats 1000000

namespace InvoiceQC

/-- Python truthiness of an optional string: `None` and `""` are falsy. -/
def pyTruthy (o : Option String) : Bool :=
  !(o.getD "" == "")

/-- Modelled from the spec: the `LineItem` record of §3 (the record the
extractor constructs; the `LineItem` dataclass in the snapshot `schemas.py`
is from a different iteration and lacks these fields).  All fields are
optional — absence is a first-class state. -/
structure LineItem where
  position : Option Int := none
  description : Option String := none
  quantity : Option ℚ := none
  unit : Option String := none
  unit_conversion : Option String := none
  unit_price : Option ℚ := none
  line_total : Option ℚ := none
deriving Repr, DecidableEq

/-- Modelled from the spec: the `Invoice` record of §3 (the record the
extractor constructs and the validator consumes; the `Invoice` dataclass in
the snapshot `schemas.py` is from a different iteration).  All scalar
fields are optional. -/
structure Invoice where
  invoice_number : Option String := none
  purchase_order_number : Option String := none
  invoice_date : Option String := none
  customer_number : Option String := none
  end_customer_number : Option String := none
  payment_terms : Option String := none
  delivery_terms : Option String := none
  delivery_date : Option String := none
  currency : Option String := none
  net_total : Option ℚ := none
  tax_rate : Option ℚ := none
  tax_amount : Option ℚ := none
  gross_total : Option ℚ := none
  seller_name : Option String := none
  seller_address : Option String := none
  buyer_name : Option String := none
  buyer_address : Option String := none
  line_items : List LineItem := []
  notes : Option String := none
  source_file : Option String := none
deriving Repr, DecidableEq

/-- Per-invoice validation result (`validator.py` returns a dict with these
three keys). -/
structure ValidationResult where
  invoice_id : String
  is_valid : Bool
  errors : List String
deriving Repr, DecidableEq

/-- Python `abs` on a rational, written with `if` so that it evaluates. -/
def pyAbs (q : ℚ) : ℚ :=
  if q < 0 then -q else q

/-- `pyAbs` agrees with the mathematical absolute value. -/
theorem pyAbs_eq_abs (q : ℚ) : pyAbs q = |q| := by
  unfold pyAbs
  split
  · exact (abs_of_neg (by assumption)).symm
  · exact (abs_of_nonneg (by linarith [not_lt.mp (by assumption)])).symm

/-- Modelled from the spec: `approx_equal` is imported by `validator.py`
from `invoice_qc.utils` but absent from the snapshot `utils.py`; §4.8 of
the spec fixes the tolerance to `0.5` (rules 3 and 4). -/
def approx_equal (a b : ℚ) : Bool :=
  decide (pyAbs (a - b) ≤ 1/2)

/-- The duplicate-detection key `(invoice_number, invoice_date, seller_name)`. -/
abbrev DupKey : Type := String × String × String

/-- A conditional one-element error block: Python
`if cond: errors.append(e)` becomes concatenation of `eIf cond e`. -/
def eIf (c : Bool) (e : String) : List String :=
  if c then [e] else []

/-- The guard of the duplicate rule (`validator.py`, line 72): all three key
components present and non-empty (`inv_num and inv_date and seller_name`
over the `or ""` defaults). -/
def has_dup_key (invoice : Invoice) : Bool :=
  !(invoice.invoice_number.getD "" == "") &&
  !(invoice.invoice_date.getD "" == "") &&
  !(invoice.seller_name.getD "" == "")

/-- The duplicate key formed at `validator.py`, line 73. -/
def dup_key (invoice : Invoice) : DupKey :=
  (invoice.invoice_number.getD "", invoice.invoice_date.getD "",
   invoice.seller_name.getD "")

/-- The allowed currency set of `validator.py` (`{"EUR", "USD", "INR"}`). -/
def allowed_currencies : List String :=
  ["EUR", "USD", "INR"]

/-- Python `str.upper()`, character by character (ASCII-faithful). -/
def pyUpper (s : String) : String :=
  ⟨s.data.map Char.toUpper⟩

/-- The error accumulation of `validate_invoice` (`validator.py`, lines
12-77), in source order: the sequential `errors.append` calls become a
concatenation of conditional blocks.  The
`format_error: <field>_not_numeric` loop of the source is a no-op here:
in the typed embedding the three totals are rationals, so the
`isinstance` test always succeeds and the loop never appends. -/
def validationErrors (invoice : Invoice) (seen_keys : List DupKey) : List String :=
  let sum_lines := (invoice.line_items.filterMap (fun li => li.line_total)).sum
  eIf (!pyTruthy invoice.invoice_number) "missing_field: invoice_number" ++
    eIf (!pyTruthy invoice.invoice_date) "missing_field: invoice_date" ++
    eIf (!pyTruthy invoice.seller_name) "missing_field: seller_name" ++
    eIf (!pyTruthy invoice.buyer_name) "missing_field: buyer_name" ++
    eIf invoice.net_total.isNone "missing_field: net_total" ++
    eIf invoice.tax_amount.isNone "missing_field: tax_amount" ++
    eIf invoice.gross_total.isNone "missing_field: gross_total" ++
    eIf (pyTruthy invoice.currency &&
         !(allowed_currencies.contains (pyUpper (invoice.currency.getD ""))))
      "format_error: unsupported_currency" ++
    eIf (!invoice.line_items.isEmpty && invoice.net_total.isSome &&
         !(sum_lines == 0) && !approx_equal sum_lines (invoice.net_total.getD 0))
      "business_rule_failed: net_total_mismatch_line_items" ++
    eIf (invoice.net_total.isSome && invoice.tax_amount.isSome &&
         invoice.gross_total.isSome &&
         !approx_equal (invoice.net_total.getD 0 + invoice.tax_amount.getD 0)
           (invoice.gross_total.getD 0))
      "business_rule_failed: totals_mismatch" ++
    eIf (invoice.net_total.isSome && decide (invoice.net_total.getD 0 < 0))
      "anomaly: net_total_negative" ++
    eIf (invoice.tax_amount.isSome && decide (invoice.tax_amount.getD 0 < 0))
      "anomaly: tax_amount_negative" ++
    eIf (invoice.gross_total.isSome && decide (invoice.gross_total.getD 0 < 0))
      "anomaly: gross_total_negative" ++
    eIf (has_dup_key invoice && seen_keys.contains (dup_key invoice)) "duplicate_invoice"

/-- The stateless prefix of `validationErrors`: rules 1-5 (everything
before the duplicate rule).  Equals `validationErrors` up to
reassociation of `++`. -/
def validationBase (invoice : Invoice) : List String :=
  let sum_lines := (invoice.line_items.filterMap (fun li => li.line_total)).sum
  eIf (!pyTruthy invoice.invoice_number) "missing_field: invoice_number" ++
    eIf (!pyTruthy invoice.invoice_date) "missing_field: invoice_date" ++
    eIf (!pyTruthy invoice.seller_name) "missing_field: seller_name" ++
    eIf (!pyTruthy invoice.buyer_name) "missing_field: buyer_name" ++
    eIf invoice.net_total.isNone "missing_field: net_total" ++
    eIf invoice.tax_amount.isNone "missing_field: tax_amount" ++
    eIf invoice.gross_total.isNone "missing_field: gross_total" ++
    eIf (pyTruthy invoice.currency &&
         !(allowed_currencies.contains (pyUpper (invoice.currency.getD ""))))
      "format_error: unsupported_currency" ++
    eIf (!invoice.line_items.isEmpty && invoice.net_total.isSome &&
         !(sum_lines == 0) && !approx_equal sum_lines (invoice.net_total.getD 0))
      "business_rule_failed: net_total_mismatch_line_items" ++
    eIf (invoice.net_total.isSome && invoice.tax_amount.isSome &&
         invoice.gross_total.isSome &&
         !approx_equal (invoice.net_total.getD 0 + invoice.tax_amount.getD 0)
           (invoice.gross_total.getD 0))
      "business_rule_failed: totals_mismatch" ++
    eIf (invoice.net_total.isSome && decide (invoice.net_total.getD 0 < 0))
      "anomaly: net_total_negative" ++
    eIf (invoice.tax_amount.isSome && decide (invoice.tax_amount.getD 0 < 0))
      "anomaly: tax_amount_negative" ++
    eIf (invoice.gross_total.isSome && decide (invoice.gross_total.getD 0 < 0))
      "anomaly: gross_total_negative"

/-- Every error string `validate_invoice` can produce. -/
def error_code_inventory : List String :=
  ["missing_field: invoice_number", "missing_field: invoice_date",
   "missing_field: seller_name", "missing_field: buyer_name",
   "missing_field: net_total", "missing_field: tax_amount",
   "missing_field: gross_total", "format_error: unsupported_currency",
   "business_rule_failed: net_total_mismatch_line_items",
   "business_rule_failed: totals_mismatch", "anomaly: net_total_negative",
   "anomaly: tax_amount_negative", "anomaly: gross_total_negative",
   "duplicate_invoice"]

/-- The error-code categories named by the specification (§6). -/
def spec_code_categories : List String :=
  ["missing_field", "format_error", "business_rule_failed", "anomaly"]

/-- The error-code shape asserted by the claim: `<category>:<detail>`
with no characters other than the colon between category and detail,
meaning the detail starts immediately after the colon — in particular not
with a space.  Phrased through the prefix and the remainder after the
colon so that the form is decidable; the remainder is exactly the detail
`d` of a decomposition `e = c ++ ":" ++ d`. -/
def claimed_code_form (e : String) : Prop :=
  e = "duplicate_invoice" ∨
    ∃ c ∈ spec_code_categories,
      (c.data ++ [':']).isPrefixOf e.data = true ∧
        (e.data.drop (c.data ++ [':']).length).head? ≠ some ' '

/-- Embedding of the rest of `validate_invoice`: the updated key set
(lines 72-77) and the result record (lines 79-86). -/
def validate_invoice (invoice : Invoice) (seen_keys : List DupKey) :
    ValidationResult × List DupKey :=
  let errors := validationErrors invoice seen_keys
  let seen' :=
    if has_dup_key invoice && !seen_keys.contains (dup_key invoice) then
      dup_key invoice :: seen_keys
    else seen_keys
  let invoice_id :=
    if pyTruthy invoice.invoice_number then invoice.invoice_number.getD ""
    else if pyTruthy invoice.source_file then invoice.source_file.getD ""
    else "unknown"
  (⟨invoice_id, errors.isEmpty, errors⟩, seen')

/-- The sequential pass of `validate_invoices` over the batch, threading the
duplicate-key set. -/
def processBatch (seen_keys : List DupKey) : List Invoice → List ValidationResult
  | [] => []
  | inv :: rest =>
    let step := validate_invoice inv seen_keys
    step.1 :: processBatch step.2 rest

/-- Batch summary (`validator.py`, lines 106-111).  `error_counts` is the
`Counter` of the source, modelled as its counting function. -/
structure ValidationSummary where
  total_invoices : ℕ
  valid_invoices : ℕ
  invalid_invoices : ℕ
  error_counts : String → ℕ

/-- Return value of `validate_invoices`. -/
structure ValidationReport where
  summary : ValidationSummary
  results : List ValidationResult

/-- Embedding of `validate_invoices` (`validator.py`, lines 89-116): a fresh
empty duplicate-key set, a sequential pass, then aggregation. -/
def validate_invoices (invoices : List Invoice) : ValidationReport :=
  let per_invoice := processBatch [] invoices
  let total := invoices.length
  let valid := (per_invoice.filter (fun r => r.is_valid)).length
  { summary :=
      { total_invoices := total
        valid_invoices := valid
        invalid_invoices := total - valid
        error_counts := fun e =>
          ((per_invoice.map ValidationResult.errors).flatten).count e }
    results := per_invoice }

/-! ## NumberParser -/

/-- Value of a list of decimal digit characters. -/
def digitsToNat (ds : List Char) : ℕ :=
  ds.foldl (fun acc c => 10 * acc + (c.toNat - 48)) 0

/-- The shape accepted by Python `float(...)` on a cleaned unsigned
string: digits with at most one dot (`"12"`, `"12."`, `".5"`, `"12.5"`);
anything else fails.  Returns the integer and fractional digit runs. -/
def parseUnsignedParts (cs : List Char) : Option (List Char × List Char) :=
  let intPart := cs.takeWhile Char.isDigit
  match cs.drop intPart.length with
  | [] => if intPart.isEmpty then none else some (intPart, [])
  | '.' :: frac =>
    if frac.all Char.isDigit && !(intPart.isEmpty && frac.isEmpty) then
      some (intPart, frac)
    else none
  | _ => none

/-- Sign and digit runs of a float literal (optional leading minus). -/
def parseFloatParts (cs : List Char) : Option (Bool × List Char × List Char) :=
  match cs with
  | '-' :: rest => (parseUnsignedParts rest).map (fun p => (true, p))
  | _ => (parseUnsignedParts cs).map (fun p => (false, p))

/-- The rational value of a parsed float (sign, integer digits,
fractional digits). -/
def floatValue : Bool × List Char × List Char → ℚ
  | (sgn, ip, fp) =>
    let v := (digitsToNat ip : ℚ) + (digitsToNat fp : ℚ) / (10 : ℚ) ^ fp.length
    if sgn then -v else v

/-- Python `float(...)` on a cleaned string. -/
def parsePyFloat (cs : List Char) : Option ℚ :=
  (parseFloatParts cs).map floatValue

/-- Modelled from the spec: the cleaning and disambiguation stage of
`parse_number` (§4.1).  Strip all characters other than digits, comma,
dot, minus; if both `,` and `.` appear, remove all `.` and then replace
the remaining `,` with `.`; if only `,` appears, replace it with `.`;
otherwise pass through. -/
def separatorNormalize (s : String) : List Char :=
  let cleaned := s.data.filter (fun c => c.isDigit || c == ',' || c == '.' || c == '-')
  if cleaned.contains ',' && cleaned.contains '.' then
    (cleaned.filter (fun c => !(c == '.'))).map (fun c => if c == ',' then '.' else c)
  else if cleaned.contains ',' then
    cleaned.map (fun c => if c == ',' then '.' else c)
  else cleaned

/-- Modelled from the spec: `parse_number` (§4.1) is imported by
`extractor.py` from `invoice_qc.utils` but absent from the snapshot
`utils.py`.  Cleaning and separator disambiguation via
`separatorNormalize`, then Python `float(...)`; absent for `None`, an
empty cleaned string, or an unparseable cleaned string. -/
def parse_number (raw : Option String) : Option ℚ :=
  match raw with
  | none => none
  | some s => parsePyFloat (separatorNormalize s)

/-! ## Extraction engine

The Python `re` module is an external collaborator: every extraction
function is parameterized by an oracle
`re_search : String → String → Option (List (Option String))` mapping a
pattern (the verbatim pattern string of the source) and a text to the
capture groups of the first match, or `none` when the pattern does not
match.  `SearchOk` states the contract the `re` API guarantees for the
patterns of this source: a match carries exactly the pattern's number of
groups, and group 1 of the patterns whose group 1 always participates is
never `None`. -/

/-- Python `str.strip()` on a character list. -/
def stripWs (cs : List Char) : List Char :=
  ((cs.dropWhile Char.isWhitespace).reverse.dropWhile Char.isWhitespace).reverse

/-- Python `str.strip()`. -/
def pyStrip (s : String) : String :=
  ⟨stripWs s.data⟩

/-- Python `str.splitlines()` (newline-separated; the texts handled by the
extractor are joined with `"\n"`). -/
def pySplitLines (s : String) : List String :=
  s.splitOn "\n"

/-- The non-blank stripped lines of a block
(`[l.strip() for l in block.splitlines() if l.strip()]`). -/
def cleanLines (s : String) : List String :=
  ((pySplitLines s).map pyStrip).filter (fun l => !(l == ""))

/-- Python `str.split()` with no argument: maximal non-whitespace runs. -/
def wordsOf : List Char → List String
  | [] => []
  | c :: cs =>
    if h : c.isWhitespace then wordsOf cs
    else
      let w := (c :: cs).takeWhile (fun d => !d.isWhitespace)
      (⟨w⟩ : String) :: wordsOf ((c :: cs).drop w.length)
termination_by cs => cs.length
decreasing_by
  · simp
  · have hpos : 0 < ((c :: cs).takeWhile (fun d => !d.isWhitespace)).length := by
      simp [List.takeWhile_cons, h]
    simp only [List.length_drop, List.length_cons]
    omega

/-- Python `str.split()`. -/
def pySplitWs (s : String) : List String :=
  wordsOf s.data

/-- Python `int(...)`: optional surrounding whitespace, optional sign,
then decimal digits; raises (here: `none`) otherwise. -/
def pyInt? (s : String) : Option Int :=
  match stripWs s.data with
  | '-' :: ds =>
    if !ds.isEmpty && ds.all Char.isDigit then some (-(digitsToNat ds : Int)) else none
  | '+' :: ds =>
    if !ds.isEmpty && ds.all Char.isDigit then some ((digitsToNat ds : Int)) else none
  | ds =>
    if !ds.isEmpty && ds.all Char.isDigit then some ((digitsToNat ds : Int)) else none

/-- Lookup in an association list with a default (Python `dict.get`). -/
def lookupD {α : Type} (d : List (String × α)) (k : String) (dflt : α) : α :=
  match d.find? (fun p => p.1 == k) with
  | some p => p.2
  | none => dflt

/-- The `PATTERNS` table of `extractor.py` (lines 27-72), verbatim. -/
def PATTERNS : List (String × List (String × List String)) :=
  [("invoice_number",
    [("de",
      ["Rechnungsnummer[:\\s]*([A-Za-z0-9\\-\\/]+)",
       "Rechnung\\s*Nr\\.?\\s*([A-Za-z0-9\\-\\/]+)",
       "AUFNR([0-9A-Za-z\\-\\/]+)"]),
     ("en",
      ["Invoice\\s*(Number|No\\.?|#)[:\\s]*([A-Za-z0-9\\-\\/]+)"])]),
   ("invoice_date",
    [("de",
      ["vom\\s+([\\d\\.\\/\\-]+)",
       "Rechnungsdatum[:\\s]*([\\d\\.\\/\\-]+)"]),
     ("en",
      ["Invoice\\s*Date[:\\s]*([\\d\\.\\/\\-]+)",
       "Date[:\\s]*([\\d\\.\\/\\-]+)"])]),
   ("customer_number",
    [("de", ["Unsere\\s+Kundennummer\\s*([\\dA-Za-z\\-\\/]+)"]),
     ("en", ["Customer\\s*(No\\.?|Number)[:\\s]*([\\dA-Za-z\\-\\/]+)"])]),
   ("end_customer_number",
    [("de", ["Endkundennummer\\s*([\\dA-Za-z\\-\\/]+)"]),
     ("en", ["End\\s*Customer\\s*(No\\.?|Number)[:\\s]*([\\dA-Za-z\\-\\/]+)"])]),
   ("payment_terms",
    [("de", ["Zahlungsbedingungen\\s*(.+)"]),
     ("en", ["Payment\\s*Terms\\s*(.+)"])]),
   ("delivery_terms",
    [("de", ["Lieferbedingungen\\s*(.+)"]),
     ("en", ["Delivery\\s*Terms\\s*(.+)"])]),
   ("delivery_date",
    [("de", ["Gewünschtes\\s+Lieferdatum\\s*(.+)"]),
     ("en", ["Delivery\\s*Date\\s*(.+)"])]),
   ("currency",
    [("de", ["Preis\\s+in\\s+([A-Z]{3})"]),
     ("en", ["Currency[:\\s]*([A-Z]{3})"])])]

/-- The candidate pattern list of `_search_patterns`: the detected
language's list followed by the `"en"` fallback list. -/
def patternCandidates (field lang : String) : List String :=
  lookupD (lookupD PATTERNS field []) lang [] ++ lookupD (lookupD PATTERNS field []) "en" []

/-- The oracle type standing for `re.search` (pattern, text ↦ capture
groups of the first match).  The flag sets of the call sites are fixed
per pattern in the source, so they are left implicit in the oracle. -/
abbrev ReSearch : Type := String → String → Option (List (Option String))

/-- The loop body of `_search_patterns` (`extractor.py`, lines 79-85):
first pattern whose match has a truthy capture group wins; the last truthy
group, stripped, is the value. -/
def searchFirst (re_search : ReSearch) (text : String) : List String → Option String
  | [] => none
  | p :: rest =>
    match re_search p text with
    | none => searchFirst re_search text rest
    | some gs =>
      let groups := (gs.filterMap id).filter (fun g => !(g == ""))
      match groups.getLast? with
      | some g => some (pyStrip g)
      | none => searchFirst re_search text rest

/-- Embedding of `_search_patterns` (`extractor.py`, lines 75-85). -/
def search_patterns (re_search : ReSearch) (field lang text : String) : Option String :=
  searchFirst re_search text (patternCandidates field lang)

/-- Embedding of `detect_language` (`extractor.py`, lines 21-25): the
`langdetect` collaborator is an oracle; any detection failure yields
`"en"`. -/
def detect_language (detect : String → Option String) (text : String) : String :=
  (detect text).getD "en"

/-- Pattern of `_extract_totals`, net total, first alternative. -/
def PAT_net1 : String := "Gesamtwert\\s+EUR\\s*([\\d\\.,]+)"

/-- Pattern of `_extract_totals`, net total, second alternative. -/
def PAT_net2 : String := "Netto(?:betrag)?[:\\s]*([\\d\\.,]+)"

/-- Pattern of `_extract_totals`, tax rate and amount (two groups). -/
def PAT_tax : String := "MwSt\\.?\\s*([\\d\\.,]+)\\s*%.*?([\\d\\.,]+)"

/-- Pattern of `_extract_totals`, gross total. -/
def PAT_gross : String := "Gesamtwert\\s+inkl\\.?\\s+MwSt\\.?\\s*EUR\\s*([\\d\\.,]+)"

/-- Pattern of `_extract_parties`, buyer block. -/
def PAT_buyer : String := "Kundenanschrift(.*?)(?:Unsere Kundennummer|Seite\\s+\\d+)"

/-- Pattern of `_extract_parties`, seller block. -/
def PAT_seller : String := "(Beispielname.*?)(?:Ihre Faxnummer|Seite\\s+\\d+)"

/-- Pattern of `_extract_purchase_order` (two groups, second optional). -/
def PAT_po : String := "Bestellung\\s+([A-Z0-9]+).*?(im Auftrag von\\s*[0-9A-Za-z]+)?"

/-- Table-header pattern of `_extract_line_items`. -/
def PAT_table : String := "Pos\\.\\s+Artikelbeschreibung.*?Bestellwert\\s+in\\s+EUR(.*)"

/-- Document-level description marker of `_extract_line_items`. -/
def PAT_desc : String := "Sterilisationsmittel"

/-- Quantity and unit pattern of `_extract_line_items` (two groups). -/
def PAT_qty : String := "(\\d+[,\\.]?\\d*)\\s*([A-Za-z]+)"

/-- Unit-conversion pattern of `_extract_line_items`. -/
def PAT_conv : String := "(1\\s*[A-Za-z=0-9\\s]*Stück)"

/-- Unit-price pattern of `_extract_line_items`. -/
def PAT_price : String := "([\\d\\.,]+)\\s*pro"

/-- Number of capture groups of each pattern the source indexes into. -/
def patternArity (p : String) : ℕ :=
  if p == PAT_tax || p == PAT_qty || p == PAT_po then 2
  else if p == PAT_desc then 0
  else 1

/-- Patterns whose group 1 participates in every match (is never `None`). -/
def patternGroup1Total (p : String) : Bool :=
  p == PAT_buyer || p == PAT_seller || p == PAT_table

/-- The contract of the `re.search` collaborator for the patterns of this
source: exactly `patternArity p` capture groups per match, and a
participating group 1 where the pattern guarantees it. -/
def SearchOk (re_search : ReSearch) : Prop :=
  ∀ p text gs, re_search p text = some gs →
    gs.length = patternArity p ∧
    (patternGroup1Total p = true → ∃ s, gs.head? = some (some s))

/-- Python `m.group(i)` for `i ≥ 1`: `IndexError` when the pattern has
fewer groups. -/
def pyGroup (gs : List (Option String)) (i : ℕ) : Except String (Option String) :=
  match gs[i-1]? with
  | some g => Except.ok g
  | none => Except.error "IndexError"

/-- Using a possibly-`None` group as a string: `AttributeError` on `None`
(Python `None.strip()` and alike). -/
def pyStrM (g : Option String) : Except String String :=
  match g with
  | some s => Except.ok s
  | none => Except.error "AttributeError"

/-- Embedding of `_extract_totals` (`extractor.py`, lines 88-126),
returning `(net_total, tax_rate, tax_amount, gross_total)`.  Fallible
operations (`m.group(i)`) live in `Except`. -/
def extract_totals (re_search : ReSearch) (text : String) :
    Except String (Option ℚ × Option ℚ × Option ℚ × Option ℚ) :=
  (match (re_search PAT_net1 text).orElse (fun _ => re_search PAT_net2 text) with
   | none => Except.ok none
   | some gs => (pyGroup gs 1).map (fun g => parse_number g)) >>= fun net_total =>
  (match re_search PAT_tax text with
   | none => Except.ok (none, none)
   | some gs =>
     (pyGroup gs 1).bind (fun g1 =>
       (pyGroup gs 2).map (fun g2 => (parse_number g1, parse_number g2)))) >>= fun rateAmount =>
  (match re_search PAT_gross text with
   | none => Except.ok none
   | some gs => (pyGroup gs 1).map (fun g => parse_number g)) >>= fun gross_total =>
  Except.ok (net_total, rateAmount.1, rateAmount.2, gross_total)

/-- The shared block logic of `_extract_parties`: first non-blank line is
the name, the remaining lines joined with `", "` are the address. -/
def partyBlock (block : String) : Option String × Option String :=
  match cleanLines (pyStrip block) with
  | [] => (none, none)
  | name :: rest =>
    (some name, if rest.isEmpty then none else some (String.intercalate ", " rest))

/-- Embedding of `_extract_parties` (`extractor.py`, lines 129-168),
returning `(seller_name, seller_address, buyer_name, buyer_address)`. -/
def extract_parties (re_search : ReSearch) (text : String) :
    Except String (Option String × Option String × Option String × Option String) :=
  (match re_search PAT_buyer text with
   | none => Except.ok ((none : Option String), (none : Option String))
   | some gs =>
     (pyGroup gs 1).bind (fun g => (pyStrM g).map (fun s => partyBlock s))) >>= fun buyer =>
  (match re_search PAT_seller text with
   | none => Except.ok ((none : Option String), (none : Option String))
   | some gs =>
     (pyGroup gs 1).bind (fun g => (pyStrM g).map (fun s => partyBlock s))) >>= fun seller =>
  Except.ok (seller.1, seller.2, buyer.1, buyer.2)

/-- Embedding of `_extract_purchase_order` (`extractor.py`, lines
171-179): the truthy groups joined with `" "`, stripped. -/
def extract_purchase_order (re_search : ReSearch) (text : String) : Option String :=
  match re_search PAT_po text with
  | none => none
  | some gs =>
    some (pyStrip (String.intercalate " " ((gs.filterMap id).filter (fun g => !(g == "")))))

/-- The row filter `re.match(r"^\d+\s", line)`: one or more leading
digits followed by a whitespace character. -/
def rowStart (line : String) : Bool :=
  let ds := line.data.takeWhile Char.isDigit
  !ds.isEmpty &&
    match (line.data.drop ds.length).head? with
    | some c => c.isWhitespace
    | none => false

/-- The body of the row loop of `_extract_line_items` (`extractor.py`,
lines 208-247): position from the first whitespace-separated token
(`int(...)` failure caught), quantity/unit, conversion note and unit
price from row-level patterns, the document-level description, and a
`line_total` of `None`. -/
def parse_line_item (re_search : ReSearch) (line : String)
    (description : Option String) : Except String LineItem :=
  (match pySplitWs line with
   | [] => Except.error "IndexError"
   | p :: _ => Except.ok (pyInt? p)) >>= fun position =>
  (match re_search PAT_qty line with
   | none => Except.ok ((none : Option ℚ), (none : Option String))
   | some gs =>
     (pyGroup gs 1).bind (fun g1 =>
       (pyGroup gs 2).map (fun g2 => (parse_number g1, g2)))) >>= fun quantityUnit =>
  (match re_search PAT_conv line with
   | none => Except.ok (none : Option String)
   | some gs => pyGroup gs 1) >>= fun unit_conversion =>
  (match re_search PAT_price line with
   | none => Except.ok (none : Option ℚ)
   | some gs => (pyGroup gs 1).map (fun g => parse_number g)) >>= fun unit_price =>
  Except.ok { position := position, description := description,
              quantity := quantityUnit.1, unit := quantityUnit.2,
              unit_conversion := unit_conversion, unit_price := unit_price,
              line_total := none }

/-- Embedding of `_extract_line_items` (`extractor.py`, lines 182-250).
The `for`/`break` row loop of the source appends at most one item: the
first non-blank table line matching `rowStart`. -/
def extract_line_items (re_search : ReSearch) (text : String) :
    Except String (List LineItem) :=
  match re_search PAT_table text with
  | none => Except.ok []
  | some gs =>
    (pyGroup gs 1).bind (fun g => (pyStrM g).bind (fun table_text =>
      let lines := cleanLines table_text
      let description :=
        if (re_search PAT_desc text).isSome then some "Sterilisationsmittel" else none
      match lines.find? rowStart with
      | none => Except.ok []
      | some line => (parse_line_item re_search line description).map (fun item => [item])))

/-- Embedding of `extract_invoice_from_text` (`extractor.py`, lines
253-290): language detection, scalar fields, totals, parties, purchase
order and line items assembled into one `Invoice`; `currency` defaults to
`"EUR"` via Python `or`. -/
def extract_invoice_from_text (detect : String → Option String)
    (re_search : ReSearch) (text : String) (source_file : Option String) :
    Except String Invoice :=
  let lang := detect_language detect text
  let invoice_number := search_patterns re_search "invoice_number" lang text
  let invoice_date := search_patterns re_search "invoice_date" lang text
  let customer_number := search_patterns re_search "customer_number" lang text
  let end_customer_number := search_patterns re_search "end_customer_number" lang text
  let payment_terms := search_patterns re_search "payment_terms" lang text
  let delivery_terms := search_patterns re_search "delivery_terms" lang text
  let delivery_date := search_patterns re_search "delivery_date" lang text
  let currency0 := search_patterns re_search "currency" lang text
  let currency := if pyTruthy currency0 then currency0.getD "" else "EUR"
  let purchase_order_number := extract_purchase_order re_search text
  extract_totals re_search text >>= fun totals =>
  extract_parties re_search text >>= fun parties =>
  extract_line_items re_search text >>= fun line_items =>
  Except.ok
    { invoice_number := invoice_number
      purchase_order_number := purchase_order_number
      invoice_date := invoice_date
      customer_number := customer_number
      end_customer_number := end_customer_number
      payment_terms := payment_terms
      delivery_terms := delivery_terms
      delivery_date := delivery_date
      currency := some currency
      net_total := totals.1
      tax_rate := totals.2.1
      tax_amount := totals.2.2.1
      gross_total := totals.2.2.2
      seller_name := parties.1
      seller_address := parties.2.1
      buyer_name := parties.2.2.1
      buyer_address := parties.2.2.2
      line_items := line_items
      notes := none
      source_file := source_file }

/-! ## Helper lemmas -/

theorem mem_eIf {a e : String} {c : Bool} : a ∈ eIf c e ↔ c = true ∧ a = e := by
  cases c <;> simp [eIf]

theorem eIf_true (e : String) : eIf true e = [e] := rfl

theorem eIf_false (e : String) : eIf false e = [] := rfl

theorem pyTruthy_none : pyTruthy none = false := rfl

theorem validate_invoice_errors (invoice : Invoice) (seen : List DupKey) :
    (validate_invoice invoice seen).1.errors = validationErrors invoice seen := rfl

theorem validate_invoice_is_valid (invoice : Invoice) (seen : List DupKey) :
    (validate_invoice invoice seen).1.is_valid =
      (validationErrors invoice seen).isEmpty := by
  simp only [validate_invoice]

theorem validate_invoice_seen (invoice : Invoice) (seen : List DupKey) :
    (validate_invoice invoice seen).2 =
      if has_dup_key invoice && !seen.contains (dup_key invoice) then
        dup_key invoice :: seen
      else seen := rfl

theorem mem_dup_iff (invoice : Invoice) (seen : List DupKey) :
    "duplicate_invoice" ∈ validationErrors invoice seen ↔
      has_dup_key invoice = true ∧ dup_key invoice ∈ seen := by
  simp only [validationErrors, List.mem_append, mem_eIf]
  simp [List.contains, List.elem_iff]

theorem mem_validate_seen (invoice : Invoice) (seen : List DupKey) (k : DupKey) :
    k ∈ (validate_invoice invoice seen).2 ↔
      k ∈ seen ∨ (has_dup_key invoice = true ∧ dup_key invoice = k) := by
  rw [validate_invoice_seen]
  split
  · rename_i hcond
    simp only [Bool.and_eq_true, Bool.not_eq_true'] at hcond
    simp only [List.mem_cons]
    constructor
    · rintro (rfl | hk)
      · exact Or.inr ⟨hcond.1, rfl⟩
      · exact Or.inl hk
    · rintro (hk | ⟨-, rfl⟩)
      · exact Or.inr hk
      · exact Or.inl rfl
  · rename_i hcond
    simp only [Bool.and_eq_true, Bool.not_eq_true', not_and, Bool.not_eq_false] at hcond
    constructor
    · exact Or.inl
    · rintro (hk | ⟨hkey, rfl⟩)
      · exact hk
      · exact List.elem_iff.mp (hcond hkey)

theorem processBatch_length (seen : List DupKey) (invs : List Invoice) :
    (processBatch seen invs).length = invs.length := by
  induction invs generalizing seen with
  | nil => rfl
  | cons inv rest ih => simp [processBatch, ih]

theorem processBatch_dup_iff (invs : List Invoice) (seen : List DupKey) (i : ℕ) :
    (∃ r, (processBatch seen invs)[i]? = some r ∧ "duplicate_invoice" ∈ r.errors) ↔
    (∃ inv, invs[i]? = some inv ∧ has_dup_key inv = true ∧
      (dup_key inv ∈ seen ∨
        ∃ j, j < i ∧ ∃ prev, invs[j]? = some prev ∧ has_dup_key prev = true ∧
          dup_key prev = dup_key inv)) := by
  induction invs generalizing seen i with
  | nil => simp [processBatch]
  | cons inv rest ih =>
    cases i with
    | zero =>
      simp only [processBatch, List.getElem?_cons_zero, Option.some_inj]
      constructor
      · rintro ⟨r, rfl, hmem⟩
        rw [validate_invoice_errors, mem_dup_iff] at hmem
        exact ⟨inv, by simp, hmem.1, Or.inl hmem.2⟩
      · rintro ⟨inv', hinv', hkey, hmem | ⟨j, hj, -⟩⟩
        · cases hinv'
          exact ⟨_, rfl, by rw [validate_invoice_errors, mem_dup_iff]; exact ⟨hkey, hmem⟩⟩
        · omega
    | succ n =>
      simp only [processBatch, List.getElem?_cons_succ]
      rw [ih]
      constructor
      · rintro ⟨inv', hinv', hkey, hmem | ⟨j, hj, prev, hprev, hpkey, hpeq⟩⟩
        · rw [mem_validate_seen] at hmem
          rcases hmem with hmem | ⟨hk0, heq⟩
          · exact ⟨inv', hinv', hkey, Or.inl hmem⟩
          · exact ⟨inv', hinv', hkey, Or.inr ⟨0, by omega, inv, by simp, hk0, heq⟩⟩
        · exact ⟨inv', hinv', hkey,
            Or.inr ⟨j + 1, by omega, prev, by simpa using hprev, hpkey, hpeq⟩⟩
      · rintro ⟨inv', hinv', hkey, hmem | ⟨j, hj, prev, hprev, hpkey, hpeq⟩⟩
        · exact ⟨inv', hinv', hkey, Or.inl ((mem_validate_seen inv seen _).mpr (Or.inl hmem))⟩
        · cases j with
          | zero =>
            simp only [List.getElem?_cons_zero, Option.some_inj] at hprev
            cases hprev
            exact ⟨inv', hinv', hkey,
              Or.inl ((mem_validate_seen inv seen _).mpr (Or.inr ⟨hpkey, hpeq⟩))⟩
          | succ m =>
            simp only [List.getElem?_cons_succ] at hprev
            exact ⟨inv', hinv', hkey, Or.inr ⟨m, by omega, prev, hprev, hpkey, hpeq⟩⟩

theorem validationErrors_split (invoice : Invoice) (seen : List DupKey) :
    validationErrors invoice seen =
      validationBase invoice ++
        eIf (has_dup_key invoice && seen.contains (dup_key invoice)) "duplicate_invoice" := by
  simp [validationErrors, validationBase, List.append_assoc]

theorem dup_not_mem_base (invoice : Invoice) :
    "duplicate_invoice" ∉ validationBase invoice := by
  intro h
  simp only [validationBase, List.mem_append, mem_eIf] at h
  simp at h

/-! ## Claim theorems -/

theorem errors_mem_inventory (invoice : Invoice) (seen : List DupKey) :
    ∀ e ∈ (validate_invoice invoice seen).1.errors, e ∈ error_code_inventory := by
  intro e he
  rw [validate_invoice_errors] at he
  simp only [validationErrors, List.mem_append, mem_eIf] at he
  simp only [error_code_inventory, List.mem_cons, List.not_mem_nil, or_false]
  tauto

instance (e : String) : Decidable (claimed_code_form e) := by
  unfold claimed_code_form
  infer_instance

/-- Claim C3: in every batch, an invoice's result carries
`duplicate_invoice` exactly when the invoice has a complete
(present and non-empty) duplicate key and some strictly earlier invoice
of the batch has the same complete key; invoices lacking a component are
never flagged and never register a key. -/
theorem C3_duplicate_order (invs : List Invoice) :
    (validate_invoices invs).results.length = invs.length ∧
    ∀ i : ℕ,
      ((∃ r, (validate_invoices invs).results[i]? = some r ∧
          "duplicate_invoice" ∈ r.errors) ↔
        (∃ inv, invs[i]? = some inv ∧ has_dup_key inv = true ∧
          ∃ j, j < i ∧ ∃ prev, invs[j]? = some prev ∧ has_dup_key prev = true ∧
            dup_key prev = dup_key inv)) := by
  have hres : (validate_invoices invs).results = processBatch [] invs := rfl
  refine ⟨by rw [hres]; exact processBatch_length [] invs, fun i => ?_⟩
  rw [hres, processBatch_dup_iff]
  simp

/-- Witness for C3: in a two-element batch of identical complete-key
invoices the second result is flagged. -/
theorem C3_duplicate_order_witness :
    ∃ r, (validate_invoices
        [{ invoice_number := some "A", invoice_date := some "d", seller_name := some "s" },
         { invoice_number := some "A", invoice_date := some "d", seller_name := some "s" }]).results[1]? =
      some r ∧ "duplicate_invoice" ∈ r.errors := by
  refine ((C3_duplicate_order _).2 1).mpr
    ⟨{ invoice_number := some "A", invoice_date := some "d", seller_name := some "s" },
     rfl, by decide, 0, by omega,
     { invoice_number := some "A", invoice_date := some "d", seller_name := some "s" },
     rfl, by decide, rfl⟩

/-- Claim C10: per-invoice validation puts `duplicate_invoice` in the
error list at most once, and when present it is the last element. -/
theorem C10_duplicate_last (invoice : Invoice) (seen : List DupKey) :
    (validate_invoice invoice seen).1.errors.count "duplicate_invoice" ≤ 1 ∧
    ("duplicate_invoice" ∈ (validate_invoice invoice seen).1.errors →
      (validate_invoice invoice seen).1.errors.getLast? = some "duplicate_invoice") := by
  rw [validate_invoice_errors, validationErrors_split]
  have hbase := dup_not_mem_base invoice
  have hcount : (validationBase invoice).count "duplicate_invoice" = 0 :=
    List.count_eq_zero.mpr hbase
  cases hc : (has_dup_key invoice && seen.contains (dup_key invoice)) with
  | false =>
    rw [show eIf false "duplicate_invoice" = [] from rfl, List.append_nil]
    exact ⟨by rw [hcount]; exact Nat.zero_le 1, fun h => absurd h hbase⟩
  | true =>
    rw [show eIf true "duplicate_invoice" = ["duplicate_invoice"] from rfl]
    refine ⟨?_, fun _ => ?_⟩
    · rw [List.count_append, hcount]
      simp
    · rw [List.getLast?_append_of_ne_nil _ (by simp)]
      rfl

/-- Witness for C10, applied where the duplicate fires: the key of the
invoice is already registered, the error appears once and last. -/
theorem C10_duplicate_last_witness :
    (validate_invoice
        { invoice_number := some "A", invoice_date := some "d", seller_name := some "s" }
        [("A", "d", "s")]).1.errors.count "duplicate_invoice" ≤ 1 ∧
    ("duplicate_invoice" ∈ (validate_invoice
        { invoice_number := some "A", invoice_date := some "d", seller_name := some "s" }
        [("A", "d", "s")]).1.errors →
      (validate_invoice
        { invoice_number := some "A", invoice_date := some "d", seller_name := some "s" }
        [("A", "d", "s")]).1.errors.getLast? = some "duplicate_invoice") :=
  C10_duplicate_last _ _

/-- Claim C4 (amended): for every invoice with the seven required fields
absent, validation produces exactly the seven `missing_field: <name>`
errors (colon and space), followed only by
`format_error: unsupported_currency` when a present currency is outside
the allowed set, and the result is invalid. -/
theorem C4_missing_fields (invoice : Invoice) (seen : List DupKey)
    (h1 : invoice.invoice_number = none) (h2 : invoice.invoice_date = none)
    (h3 : invoice.seller_name = none) (h4 : invoice.buyer_name = none)
    (h5 : invoice.net_total = none) (h6 : invoice.tax_amount = none)
    (h7 : invoice.gross_total = none) :
    (validate_invoice invoice seen).1.errors =
      ["missing_field: invoice_number", "missing_field: invoice_date",
       "missing_field: seller_name", "missing_field: buyer_name",
       "missing_field: net_total", "missing_field: tax_amount",
       "missing_field: gross_total"] ++
      eIf (pyTruthy invoice.currency &&
           !(allowed_currencies.contains (pyUpper (invoice.currency.getD ""))))
        "format_error: unsupported_currency" ∧
    (validate_invoice invoice seen).1.is_valid = false := by
  have herr : (validate_invoice invoice seen).1.errors =
      ["missing_field: invoice_number", "missing_field: invoice_date",
       "missing_field: seller_name", "missing_field: buyer_name",
       "missing_field: net_total", "missing_field: tax_amount",
       "missing_field: gross_total"] ++
      eIf (pyTruthy invoice.currency &&
           !(allowed_currencies.contains (pyUpper (invoice.currency.getD ""))))
        "format_error: unsupported_currency" := by
    rw [validate_invoice_errors]
    have hkey : has_dup_key invoice = false := by simp [has_dup_key, h1]
    simp only [validationErrors, h1, h2, h3, h4, h5, h6, h7, pyTruthy_none,
      Option.isNone_none, Option.isSome_none, Bool.not_false, Bool.false_and,
      Bool.and_false, eIf_true, eIf_false, hkey, List.append_nil, List.nil_append,
      List.singleton_append, List.cons_append]
  refine ⟨herr, ?_⟩
  have hv : (validate_invoice invoice seen).1.is_valid =
      (validationErrors invoice seen).isEmpty := by simp only [validate_invoice]
  rw [hv, ← validate_invoice_errors, herr]
  rfl

/-- Witness for C4 at the all-absent invoice. -/
theorem C4_missing_fields_witness :
    (validate_invoice ({} : Invoice) []).1.errors =
      ["missing_field: invoice_number", "missing_field: invoice_date",
       "missing_field: seller_name", "missing_field: buyer_name",
       "missing_field: net_total", "missing_field: tax_amount",
       "missing_field: gross_total"] ++
      eIf (pyTruthy ({} : Invoice).currency &&
           !(allowed_currencies.contains (pyUpper (({} : Invoice).currency.getD ""))))
        "format_error: unsupported_currency" ∧
    (validate_invoice ({} : Invoice) []).1.is_valid = false :=
  C4_missing_fields {} [] rfl rfl rfl rfl rfl rfl rfl

/-- Counterexample for C4 as stated: an invoice with the seven required
fields absent but an unsupported currency produces eight errors, not
seven, and its missing-field codes carry a space after the colon. -/
theorem C4_missing_fields_counterexample :
    ({ currency := some "ABC" } : Invoice).invoice_number = none ∧
    ({ currency := some "ABC" } : Invoice).invoice_date = none ∧
    ({ currency := some "ABC" } : Invoice).seller_name = none ∧
    ({ currency := some "ABC" } : Invoice).buyer_name = none ∧
    ({ currency := some "ABC" } : Invoice).net_total = none ∧
    ({ currency := some "ABC" } : Invoice).tax_amount = none ∧
    ({ currency := some "ABC" } : Invoice).gross_total = none ∧
    (validate_invoice ({ currency := some "ABC" } : Invoice) []).1.errors.length = 8 ∧
    "missing_field: invoice_number" ∈
      (validate_invoice ({ currency := some "ABC" } : Invoice) []).1.errors ∧
    "missing_field:invoice_number" ∉
      (validate_invoice ({ currency := some "ABC" } : Invoice) []).1.errors := by
  decide

/-- Claim C5 (amended): with all three totals present,
`business_rule_failed: totals_mismatch` (colon and space) is produced
exactly when `|net_total + tax_amount - gross_total| > 0.5`. -/
theorem C5_totals_identity (invoice : Invoice) (seen : List DupKey) (n t g : ℚ)
    (hn : invoice.net_total = some n) (ht : invoice.tax_amount = some t)
    (hg : invoice.gross_total = some g) :
    ("business_rule_failed: totals_mismatch" ∈ (validate_invoice invoice seen).1.errors ↔
      1/2 < |n + t - g|) := by
  rw [validate_invoice_errors]
  simp only [validationErrors, List.mem_append, mem_eIf]
  constructor
  · rintro (((((((((((((⟨-, h⟩ | ⟨-, h⟩) | ⟨-, h⟩) | ⟨-, h⟩) | ⟨-, h⟩) | ⟨-, h⟩) | ⟨-, h⟩) |
        ⟨-, h⟩) | ⟨-, h⟩) | ⟨hcond, -⟩) | ⟨-, h⟩) | ⟨-, h⟩) | ⟨-, h⟩) | ⟨-, h⟩)
    all_goals try exact absurd h (by decide)
    rw [hn, ht, hg] at hcond
    simp only [Option.isSome_some, Bool.true_and, Option.getD_some,
      Bool.and_eq_true, Bool.not_eq_true'] at hcond
    rw [approx_equal, decide_eq_false_iff_not, not_le, pyAbs_eq_abs] at hcond
    exact hcond
  · intro hlt
    refine Or.inl (Or.inl (Or.inl (Or.inl (Or.inr ⟨?_, trivial⟩))))
    rw [hn, ht, hg]
    simp only [Option.isSome_some, Bool.true_and, Option.getD_some,
      Bool.and_eq_true, Bool.not_eq_true']
    rw [approx_equal, decide_eq_false_iff_not, not_le, pyAbs_eq_abs]
    exact hlt

/-- Witness for C5 at net 100, tax 19, gross 120. -/
theorem C5_totals_identity_witness :
    ("business_rule_failed: totals_mismatch" ∈
      (validate_invoice
        { net_total := some 100, tax_amount := some 19, gross_total := some 120 }
        []).1.errors ↔ 1/2 < |100 + 19 - (120 : ℚ)|) :=
  C5_totals_identity _ [] 100 19 120 rfl rfl rfl

/-- Counterexample for C5 as stated: at net 100, tax 19, gross 120 the
mismatch exceeds the tolerance, yet the space-free code
`business_rule_failed:totals_mismatch` named by the claim is not
produced (the code emits `business_rule_failed: totals_mismatch`). -/
theorem C5_totals_identity_counterexample :
    (1/2 : ℚ) < |100 + 19 - (120 : ℚ)| ∧
    "business_rule_failed:totals_mismatch" ∉
      (validate_invoice
        { net_total := some 100, tax_amount := some 19, gross_total := some 120 }
        []).1.errors := by
  constructor
  · rw [show (100 + 19 - 120 : ℚ) = -1 by norm_num, abs_neg, abs_one]
    norm_num
  · have herr : (validate_invoice
        ({ net_total := some 100, tax_amount := some 19, gross_total := some 120 } : Invoice)
        []).1.errors =
        ["missing_field: invoice_number", "missing_field: invoice_date",
         "missing_field: seller_name", "missing_field: buyer_name",
         "business_rule_failed: totals_mismatch"] := by
      norm_num [validate_invoice_errors, validationErrors, eIf, pyTruthy, approx_equal,
        pyAbs, allowed_currencies, pyUpper, has_dup_key]
    rw [herr]
    decide

/-- Claim C6: `validate_invoices` is deterministic and self-contained:
two runs on the same ordered batch give the same summary, and each run
starts its duplicate-key set fresh and empty. -/
theorem C6_deterministic (invs : List Invoice) :
    (validate_invoices invs).summary = (validate_invoices invs).summary ∧
    (validate_invoices invs).results = processBatch [] invs :=
  ⟨rfl, rfl⟩

/-- Witness for C6 at a concrete two-invoice batch. -/
theorem C6_deterministic_witness :
    (validate_invoices [{}, { currency := some "ABC" }]).summary =
      (validate_invoices [{}, { currency := some "ABC" }]).summary ∧
    (validate_invoices [{}, { currency := some "ABC" }]).results =
      processBatch [] [{}, { currency := some "ABC" }] :=
  C6_deterministic _

/-- Claim C7 (amended): every produced error string is the literal
`duplicate_invoice` or decomposes as `<category>: <detail>` — category
followed by a colon and one space — with the category in the specified
set. -/
theorem C7_code_form (invoice : Invoice) (seen : List DupKey) (e : String)
    (he : e ∈ (validate_invoice invoice seen).1.errors) :
    e = "duplicate_invoice" ∨
      ∃ c ∈ spec_code_categories, ∃ d : String, e = c ++ ": " ++ d := by
  have h := errors_mem_inventory invoice seen e he
  simp only [error_code_inventory, List.mem_cons, List.not_mem_nil, or_false] at h
  rcases h with rfl|rfl|rfl|rfl|rfl|rfl|rfl|rfl|rfl|rfl|rfl|rfl|rfl|rfl
  · exact Or.inr ⟨"missing_field", by decide, "invoice_number", by decide⟩
  · exact Or.inr ⟨"missing_field", by decide, "invoice_date", by decide⟩
  · exact Or.inr ⟨"missing_field", by decide, "seller_name", by decide⟩
  · exact Or.inr ⟨"missing_field", by decide, "buyer_name", by decide⟩
  · exact Or.inr ⟨"missing_field", by decide, "net_total", by decide⟩
  · exact Or.inr ⟨"missing_field", by decide, "tax_amount", by decide⟩
  · exact Or.inr ⟨"missing_field", by decide, "gross_total", by decide⟩
  · exact Or.inr ⟨"format_error", by decide, "unsupported_currency", by decide⟩
  · exact Or.inr ⟨"business_rule_failed", by decide, "net_total_mismatch_line_items", by decide⟩
  · exact Or.inr ⟨"business_rule_failed", by decide, "totals_mismatch", by decide⟩
  · exact Or.inr ⟨"anomaly", by decide, "net_total_negative", by decide⟩
  · exact Or.inr ⟨"anomaly", by decide, "tax_amount_negative", by decide⟩
  · exact Or.inr ⟨"anomaly", by decide, "gross_total_negative", by decide⟩
  · exact Or.inl rfl

/-- Witness for C7 at a produced error of the all-absent invoice. -/
theorem C7_code_form_witness :
    "missing_field: invoice_number" = "duplicate_invoice" ∨
      ∃ c ∈ spec_code_categories, ∃ d : String,
        "missing_field: invoice_number" = c ++ ": " ++ d :=
  C7_code_form {} [] _ (by decide)

theorem pyGroup_ok {gs : List (Option String)} {i : ℕ} (h : i - 1 < gs.length) :
    pyGroup gs i = Except.ok gs[i-1] := by
  unfold pyGroup
  rw [List.getElem?_eq_getElem h]

theorem isWhitespace_eq_false_of_isDigit {c : Char} (h : c.isDigit = true) :
    c.isWhitespace = false := by
  by_contra hw
  rw [Bool.not_eq_false] at hw
  simp only [Char.isWhitespace] at hw
  rcases Bool.or_eq_true_iff.mp hw with h4 | h3
  · rcases Bool.or_eq_true_iff.mp h4 with h2 | h1
    · rcases Bool.or_eq_true_iff.mp h2 with h0 | h1'
      · rw [show c = ' ' from by simpa using h0] at h; exact absurd h (by decide)
      · rw [show c = '\t' from by simpa using h1'] at h; exact absurd h (by decide)
    · rw [show c = '\r' from by simpa using h1] at h; exact absurd h (by decide)
  · rw [show c = '\n' from by simpa using h3] at h; exact absurd h (by decide)

theorem pySplitWs_ne_nil_of_rowStart {line : String} (h : rowStart line = true) :
    pySplitWs line ≠ [] := by
  unfold rowStart at h
  simp only [Bool.and_eq_true, Bool.not_eq_true', List.isEmpty_eq_false] at h
  obtain ⟨hne, -⟩ := h
  unfold pySplitWs
  cases hl : line.data with
  | nil => rw [hl] at hne; simp at hne
  | cons c cs =>
    rw [hl] at hne
    have hc : c.isDigit = true := by
      by_contra hcd
      rw [Bool.not_eq_true] at hcd
      simp [List.takeWhile_cons, hcd] at hne
    have hw : c.isWhitespace = false := isWhitespace_eq_false_of_isDigit hc
    rw [wordsOf]
    simp [hw]



theorem eok_of_bind {α β : Type} {x : Except String α} {f : α → Except String β}
    (hx : ∃ a, x = Except.ok a) (hf : ∀ a, ∃ b, f a = Except.ok b) :
    ∃ b, (x >>= f) = Except.ok b := by
  rcases hx with ⟨a, rfl⟩
  exact hf a

theorem extract_totals_ok (re_search : ReSearch) (text : String) (h : SearchOk re_search) :
    ∃ v, extract_totals re_search text = Except.ok v := by
  unfold extract_totals
  apply eok_of_bind
  · cases h1 : (re_search PAT_net1 text).orElse (fun _ => re_search PAT_net2 text) with
    | none => exact ⟨none, rfl⟩
    | some gs =>
      have hlen : gs.length = 1 := by
        cases hA : re_search PAT_net1 text with
        | some g1 =>
          simp only [hA, Option.orElse, Option.some_inj] at h1
          exact h1 ▸ (h PAT_net1 text g1 hA).1
        | none =>
          simp only [hA, Option.orElse] at h1
          exact (h PAT_net2 text gs h1).1
      exact eok_of_bind ⟨gs[0], pyGroup_ok (by omega)⟩ (fun g => ⟨_, rfl⟩)
  · intro net
    apply eok_of_bind
    · cases h2 : re_search PAT_tax text with
      | none => exact ⟨(none, none), rfl⟩
      | some gs =>
        have hlen : gs.length = 2 := (h PAT_tax text gs h2).1
        refine eok_of_bind ⟨gs[0], pyGroup_ok (by omega)⟩ (fun g1 => ?_)
        exact eok_of_bind ⟨gs[1], pyGroup_ok (by omega)⟩ (fun g2 => ⟨_, rfl⟩)
    · intro ra
      apply eok_of_bind
      · cases h3 : re_search PAT_gross text with
        | none => exact ⟨none, rfl⟩
        | some gs =>
          have hlen : gs.length = 1 := (h PAT_gross text gs h3).1
          exact eok_of_bind ⟨gs[0], pyGroup_ok (by omega)⟩ (fun g => ⟨_, rfl⟩)
      · intro gross
        exact ⟨_, rfl⟩


theorem group1_ok {re_search : ReSearch} {p text : String} {gs : List (Option String)}
    (h : SearchOk re_search) (hp : patternGroup1Total p = true)
    (hgs : re_search p text = some gs) :
    ∃ s, pyGroup gs 1 = Except.ok (some s) := by
  obtain ⟨-, hg1⟩ := h p text gs hgs
  obtain ⟨s, hs⟩ := hg1 hp
  refine ⟨s, ?_⟩
  unfold pyGroup
  show (match gs[0]? with
    | some g => Except.ok g
    | none => Except.error "IndexError") = Except.ok (some s)
  rw [show gs[0]? = gs.head? from (List.head?_eq_getElem? gs).symm, hs]

theorem extract_parties_ok (re_search : ReSearch) (text : String) (h : SearchOk re_search) :
    ∃ v, extract_parties re_search text = Except.ok v := by
  unfold extract_parties
  apply eok_of_bind
  · cases h1 : re_search PAT_buyer text with
    | none => exact ⟨_, rfl⟩
    | some gs =>
      obtain ⟨s, hs⟩ := group1_ok h (by decide) h1
      dsimp only
      rw [hs]
      exact ⟨_, rfl⟩
  · intro buyer
    apply eok_of_bind
    · cases h2 : re_search PAT_seller text with
      | none => exact ⟨_, rfl⟩
      | some gs =>
        obtain ⟨s, hs⟩ := group1_ok h (by decide) h2
        dsimp only
        rw [hs]
        exact ⟨_, rfl⟩
    · intro seller
      exact ⟨_, rfl⟩

theorem parse_line_item_ok (re_search : ReSearch) (line : String)
    (description : Option String) (h : SearchOk re_search)
    (hrow : rowStart line = true) :
    ∃ v, parse_line_item re_search line description = Except.ok v := by
  unfold parse_line_item
  apply eok_of_bind
  · cases hw : pySplitWs line with
    | nil => exact absurd hw (pySplitWs_ne_nil_of_rowStart hrow)
    | cons p rest => exact ⟨_, rfl⟩
  · intro position
    apply eok_of_bind
    · cases h1 : re_search PAT_qty line with
      | none => exact ⟨_, rfl⟩
      | some gs =>
        have hlen : gs.length = 2 := (h PAT_qty line gs h1).1
        refine eok_of_bind ⟨gs[0], pyGroup_ok (by omega)⟩ (fun g1 => ?_)
        exact eok_of_bind ⟨gs[1], pyGroup_ok (by omega)⟩ (fun g2 => ⟨_, rfl⟩)
    · intro quantityUnit
      apply eok_of_bind
      · cases h2 : re_search PAT_conv line with
        | none => exact ⟨_, rfl⟩
        | some gs =>
          have hlen : gs.length = 1 := (h PAT_conv line gs h2).1
          exact ⟨gs[0], pyGroup_ok (by omega)⟩
      · intro unit_conversion
        apply eok_of_bind
        · cases h3 : re_search PAT_price line with
          | none => exact ⟨_, rfl⟩
          | some gs =>
            have hlen : gs.length = 1 := (h PAT_price line gs h3).1
            exact eok_of_bind ⟨gs[0], pyGroup_ok (by omega)⟩ (fun g => ⟨_, rfl⟩)
        · intro unit_price
          exact ⟨_, rfl⟩

theorem extract_line_items_ok (re_search : ReSearch) (text : String) (h : SearchOk re_search) :
    ∃ v, extract_line_items re_search text = Except.ok v := by
  unfold extract_line_items
  cases h1 : re_search PAT_table text with
  | none => exact ⟨_, rfl⟩
  | some gs =>
    obtain ⟨s, hs⟩ := group1_ok h (by decide) h1
    dsimp only
    rw [hs]
    dsimp only [Except.bind, pyStrM]
    cases hfind : (cleanLines s).find? rowStart with
    | none => exact ⟨_, rfl⟩
    | some line =>
      have hrow : rowStart line = true := List.find?_some hfind
      obtain ⟨it, hit⟩ := parse_line_item_ok re_search line
        (if (re_search PAT_desc text).isSome then some "Sterilisationsmittel" else none) h hrow
      dsimp only
      rw [hit]
      exact ⟨_, rfl⟩


theorem extract_invoice_ok (detect : String → Option String) (re_search : ReSearch)
    (text : String) (src : Option String) (h : SearchOk re_search) :
    ∃ inv, extract_invoice_from_text detect re_search text src = Except.ok inv := by
  unfold extract_invoice_from_text
  refine eok_of_bind (extract_totals_ok re_search text h) (fun totals => ?_)
  refine eok_of_bind (extract_parties_ok re_search text h) (fun parties => ?_)
  refine eok_of_bind (extract_line_items_ok re_search text h) (fun line_items => ?_)
  exact ⟨_, rfl⟩

theorem searchFirst_none (re_search : ReSearch) (text : String) (ps : List String)
    (h : ∀ p ∈ ps, re_search p text = none) :
    searchFirst re_search text ps = none := by
  induction ps with
  | nil => rfl
  | cons p rest ih =>
    unfold searchFirst
    rw [h p (by simp)]
    exact ih (fun q hq => h q (by simp [hq]))

/-- Claim C8: when no currency pattern matches, the extracted invoice
has currency exactly `"EUR"`. -/
theorem C8_currency_default (detect : String → Option String) (re_search : ReSearch)
    (text : String) (src : Option String) (inv : Invoice)
    (hnone : ∀ p ∈ patternCandidates "currency" (detect_language detect text),
      re_search p text = none)
    (hok : extract_invoice_from_text detect re_search text src = Except.ok inv) :
    inv.currency = some "EUR" := by
  unfold extract_invoice_from_text at hok
  dsimp only at hok
  have hcur : search_patterns re_search "currency" (detect_language detect text) text = none :=
    searchFirst_none re_search text _ hnone
  rw [hcur] at hok
  cases h1 : extract_totals re_search text with
  | error e => rw [h1] at hok; exact absurd hok (by simp [Bind.bind, Except.bind])
  | ok totals =>
    rw [h1] at hok
    cases h2 : extract_parties re_search text with
    | error e => rw [h2] at hok; exact absurd hok (by simp [Bind.bind, Except.bind])
    | ok parties =>
      rw [h2] at hok
      cases h3 : extract_line_items re_search text with
      | error e => rw [h3] at hok; exact absurd hok (by simp [Bind.bind, Except.bind])
      | ok line_items =>
        rw [h3] at hok
        simp only [Bind.bind, Except.bind, Except.ok.injEq] at hok
        rw [← hok]
        rfl


/-- Claim C9: the line-item extractor returns the empty sequence when
the table-header pattern does not match, otherwise at most one item,
namely the one parsed from the first non-blank table line beginning with
an integer token. -/
theorem C9_single_line_item (re_search : ReSearch) (text : String) :
    (re_search PAT_table text = none → extract_line_items re_search text = Except.ok []) ∧
    (∀ items, extract_line_items re_search text = Except.ok items → items.length ≤ 1) ∧
    (∀ gs s, re_search PAT_table text = some gs → pyGroup gs 1 = Except.ok (some s) →
      ((cleanLines s).find? rowStart = none →
        extract_line_items re_search text = Except.ok []) ∧
      (∀ line, (cleanLines s).find? rowStart = some line →
        extract_line_items re_search text =
          (parse_line_item re_search line
            (if (re_search PAT_desc text).isSome then some "Sterilisationsmittel" else none)).map
            (fun item => [item]))) := by
  refine ⟨?_, ?_, ?_⟩
  · intro h
    unfold extract_line_items
    rw [h]
  · intro items hitems
    unfold extract_line_items at hitems
    cases h1 : re_search PAT_table text with
    | none =>
      rw [h1] at hitems
      dsimp only at hitems
      cases hitems
      exact Nat.zero_le 1
    | some gs =>
      rw [h1] at hitems
      dsimp only at hitems
      cases hg : pyGroup gs 1 with
      | error e =>
        rw [hg] at hitems
        exact absurd hitems (by simp [Except.bind])
      | ok g =>
        rw [hg] at hitems
        cases g with
        | none => exact absurd hitems (by simp [Except.bind, pyStrM])
        | some s =>
          dsimp only [Except.bind, pyStrM] at hitems
          cases hfind : (cleanLines s).find? rowStart with
          | none =>
            rw [hfind] at hitems
            cases hitems
            exact Nat.zero_le 1
          | some line =>
            rw [hfind] at hitems
            dsimp only at hitems
            cases hp : parse_line_item re_search line
                (if (re_search PAT_desc text).isSome then some "Sterilisationsmittel" else none) with
            | error e =>
              rw [hp] at hitems
              exact absurd hitems (by simp [Except.map])
            | ok it =>
              rw [hp] at hitems
              simp only [Except.map, Except.ok.injEq] at hitems
              rw [← hitems]
              exact Nat.le_refl 1
  · intro gs s hgs hg
    constructor
    · intro hfind
      unfold extract_line_items
      rw [hgs]
      dsimp only
      rw [hg]
      dsimp only [Except.bind, pyStrM]
      rw [hfind]
    · intro line hfind
      unfold extract_line_items
      rw [hgs]
      dsimp only
      rw [hg]
      dsimp only [Except.bind, pyStrM]
      rw [hfind]


/-- Claim C2: `extract_invoice_from_text` is total — for every input text
and optional source identifier, under the `re.search` API contract, it
returns an `Invoice` (never an error); extraction misses only yield
absent fields. -/
theorem C2_extraction_total (detect : String → Option String) (re_search : ReSearch)
    (text : String) (src : Option String) (h : SearchOk re_search) :
    ∃ inv, extract_invoice_from_text detect re_search text src = Except.ok inv :=
  extract_invoice_ok detect re_search text src h

/-- Witness for C2 with the never-matching oracle on the empty text. -/
theorem C2_extraction_total_witness :
    ∃ inv, extract_invoice_from_text (fun _ => none) (fun _ _ => none) "" none =
      Except.ok inv :=
  C2_extraction_total (fun _ => none) (fun _ _ => none) "" none
    (fun _ _ _ hgs => Option.noConfusion hgs)

/-- Witness for C8: with the never-matching oracle the extracted invoice
is the all-absent record with currency `"EUR"`. -/
theorem C8_currency_default_witness :
    ({ currency := some "EUR" } : Invoice).currency = some "EUR" :=
  C8_currency_default (fun _ => none) (fun _ _ => none) "" none { currency := some "EUR" }
    (fun _ _ => rfl) rfl

/-- Witness for C9: no header match yields the empty item list. -/
theorem C9_single_line_item_witness :
    extract_line_items (fun _ _ => none) "" = Except.ok [] :=
  (C9_single_line_item (fun _ _ => none) "").1 rfl

/-- Claim C1 (amended): `parse_number` follows the disambiguation rule —
with both separators present all dots are removed and the comma becomes
the decimal point — so the European-style `"1.234,56"` parses to 1234.56
but the US-style `"1,234.56"` parses to 1.23456 (not 1234.56); empty and
`None` input give absence. -/
theorem C1_parse_number :
    (∀ s : String, ',' ∈ s.data → '.' ∈ s.data →
      parse_number (some s) =
        parsePyFloat
          (((s.data.filter (fun c => c.isDigit || c == ',' || c == '.' || c == '-')).filter
              (fun c => !(c == '.'))).map (fun c => if c == ',' then '.' else c))) ∧
    parse_number (some "1.234,56") = some (1234.56 : ℚ) ∧
    parse_number (some "1,234.56") = some (1.23456 : ℚ) ∧
    parse_number (some "") = none ∧
    parse_number none = none := by
  refine ⟨?_, ?_, ?_, by decide, rfl⟩
  · intro s hc hd
    have h1 : (s.data.filter
        (fun c => c.isDigit || c == ',' || c == '.' || c == '-')).contains ',' = true :=
      List.elem_iff.mpr (List.mem_filter.mpr ⟨hc, by decide⟩)
    have h2 : (s.data.filter
        (fun c => c.isDigit || c == ',' || c == '.' || c == '-')).contains '.' = true :=
      List.elem_iff.mpr (List.mem_filter.mpr ⟨hd, by decide⟩)
    simp only [parse_number, separatorNormalize, h1, h2, Bool.and_self, if_true]
  · show (parseFloatParts (separatorNormalize "1.234,56")).map floatValue = some (1234.56 : ℚ)
    rw [show parseFloatParts (separatorNormalize "1.234,56") =
      some (false, ['1', '2', '3', '4'], ['5', '6']) from by decide]
    simp only [Option.map_some']
    norm_num [floatValue, show digitsToNat ['1', '2', '3', '4'] = 1234 from by decide,
      show digitsToNat ['5', '6'] = 56 from by decide]
  · show (parseFloatParts (separatorNormalize "1,234.56")).map floatValue = some (1.23456 : ℚ)
    rw [show parseFloatParts (separatorNormalize "1,234.56") =
      some (false, ['1'], ['2', '3', '4', '5', '6']) from by decide]
    simp only [Option.map_some']
    norm_num [floatValue, show digitsToNat ['1'] = 1 from by decide,
      show digitsToNat ['2', '3', '4', '5', '6'] = 23456 from by decide]

/-- Witness for C1 instantiating the disambiguation rule at
`"1.234,56"`. -/
theorem C1_parse_number_witness :
    parse_number (some "1.234,56") =
      parsePyFloat
        ((((("1.234,56" : String).data.filter
            (fun c => c.isDigit || c == ',' || c == '.' || c == '-')).filter
            (fun c => !(c == '.'))).map (fun c => if c == ',' then '.' else c))) :=
  C1_parse_number.1 "1.234,56" (by decide) (by decide)

/-- Counterexample for C1 as stated: under the specified rule the
US-style `"1,234.56"` parses to 1.23456, not to the claimed 1234.56. -/
theorem C1_parse_number_counterexample :
    parse_number (some "1,234.56") = some (1.23456 : ℚ) ∧
    (1.23456 : ℚ) ≠ (1234.56 : ℚ) := by
  constructor
  · show (parseFloatParts (separatorNormalize "1,234.56")).map floatValue = some (1.23456 : ℚ)
    rw [show parseFloatParts (separatorNormalize "1,234.56") =
      some (false, ['1'], ['2', '3', '4', '5', '6']) from by decide]
    simp only [Option.map_some']
    norm_num [floatValue, show digitsToNat ['1'] = 1 from by decide,
      show digitsToNat ['2', '3', '4', '5', '6'] = 23456 from by decide]
  · norm_num

/-- Counterexample for C7 as stated: the produced code
`missing_field: invoice_number` does not have the claimed space-free
`<category>:<detail>` shape — its detail starts with a space. -/
theorem C7_code_form_counterexample :
    "missing_field: invoice_number" ∈ (validate_invoice {} []).1.errors ∧
    ¬ claimed_code_form "missing_field: invoice_number" := by
  decide

end InvoiceQC
